import Mathlib

/-!
Shallow embedding of the search-and-match engine of the Firebase Search
extension (functions/index.js, and the optimized performSearch variant embedded
in README.md). JavaScript strings are modelled as Lean String, JavaScript
numbers that the engine manipulates as Int/Nat, Firestore data values as the
inductive type JSData, and the external Firestore store as a record of
response functions returning Except (an exception is a .error result).
-/

/-- Model of JavaScript String.prototype.toLowerCase (codepoint-wise). -/
def jsToLower (s : String) : String := String.mk (s.data.map Char.toLower)

/-- Model of JavaScript String.prototype.trim: strip leading and trailing
whitespace. -/
def jsTrim (s : String) : String :=
  String.mk (((s.data.dropWhile Char.isWhitespace).reverse.dropWhile
    Char.isWhitespace).reverse)

/-- Model of JavaScript str.trim().toLowerCase(), used by the sort comparator. -/
def jsTrimLower (s : String) : String := jsToLower (jsTrim s)

/-- JavaScript String.prototype.split with a one-character separator.
"".split(sep) is [""], and empty segments between separators are kept. -/
def splitOnChar (sep : Char) : List Char → List (List Char)
  | [] => [[]]
  | c :: rest =>
    let r := splitOnChar sep rest
    if c == sep then [] :: r
    else match r with
      | [] => [[c]]
      | h :: t => (c :: h) :: t

/-- fieldPath.split(".") as a list of segment strings. -/
def jsSplitDot (s : String) : List String := (splitOnChar '.' s.data).map String.mk

/-- JavaScript string comparison x < y: lexicographic on code units. -/
def jsLtChars : List Char → List Char → Bool
  | _, [] => false
  | [], _ :: _ => true
  | a :: as, b :: bs =>
    if a.toNat < b.toNat then true
    else if b.toNat < a.toNat then false
    else jsLtChars as bs

/-- x < y on strings. -/
def jsStrLt (x y : String) : Bool := jsLtChars x.data y.data

/-- Parse of a canonical decimal array index (the only property names under
which JavaScript exposes array and string elements). -/
def canonicalIndex? (k : String) : Option Nat :=
  if k.data ≠ [] ∧ k.data.all Char.isDigit then
    let n := k.data.foldl (fun a c => a * 10 + (c.toNat - 48)) 0
    if toString n == k then some n else none
  else none

/-- Model of JavaScript s.includes(part): substring containment. -/
def jsIncludes (s part : String) : Bool :=
  (List.range (s.length + 1)).any fun i => ((s.data.drop i).take part.length) == part.data

/-- One row of the Levenshtein dynamic-programming matrix (levenshteinDistance in
index.js fills the matrix row by row; this computes row i from row i-1).
c is the i-th char of str1, the list argument the chars of str2, diag the entry
matrix at i-1 j-1, left the entry at i j-1, and the last list the tail
matrix at i-1 from column j on. -/
def levRowAux (c : Char) : List Char → Nat → Nat → List Nat → List Nat
  | [], _, _, _ => []
  | c2 :: rest, diag, left, prevTail =>
    match prevTail with
    | [] => []
    | up :: prevRest =>
      let cur := if c == c2 then diag
        else min (min (up + 1) (left + 1)) (diag + 1)
      cur :: levRowAux c rest up cur prevRest

/-- levenshteinDistance from index.js: classic DP over insert/delete/substitute,
matrix row 0 is 0..len2, row i starts with i, the answer is the last entry of
the last row. -/
def levenshteinDistance (str1 str2 : String) : Nat :=
  let l1 := str1.data
  let l2 := str2.data
  let row0 : List Nat := List.range (l2.length + 1)
  let finalRow :=
    (l1.foldl (fun (st : List Nat × Nat) c =>
      let i := st.2 + 1
      (i :: levRowAux c l2 (st.1.headD 0) i st.1.tail, i)) (row0, 0)).1
  finalRow.getLastD 0

/-- getMaxTypos from index.js: Math.floor(length / config.fuzzySearchTypoTolerance). -/
def getMaxTypos (typoTolerance length : Nat) : Nat := length / typoTolerance

/-- fuzzyMatch from index.js. The config reads (config.enableFuzzySearch,
config.fuzzySearchTypoTolerance) are passed as the first two arguments. -/
def fuzzyMatch (enableFuzzySearch : Bool) (typoTolerance : Nat)
    (searchTerm fieldValue : String) (caseSensitive : Bool) : Bool :=
  if !enableFuzzySearch then
    if caseSensitive then jsIncludes fieldValue searchTerm
    else jsIncludes (jsToLower fieldValue) (jsToLower searchTerm)
  else
    let normalizedSearchTerm := if caseSensitive then searchTerm else jsToLower searchTerm
    let normalizedFieldValue := if caseSensitive then fieldValue else jsToLower fieldValue
    if normalizedSearchTerm.length ≤ 3 then
      jsIncludes normalizedFieldValue normalizedSearchTerm
    else
      let maxTypos := getMaxTypos typoTolerance normalizedSearchTerm.length
      let searchLen := normalizedSearchTerm.length
      let fieldLen := normalizedFieldValue.length
      if searchLen > fieldLen then
        decide (levenshteinDistance normalizedSearchTerm normalizedFieldValue ≤ maxTypos)
      else if (List.range (fieldLen - searchLen + 1)).any (fun i =>
          decide (levenshteinDistance normalizedSearchTerm
            (String.mk ((normalizedFieldValue.data.drop i).take searchLen)) ≤ maxTypos)) then
        true
      else if fieldLen ≤ searchLen + maxTypos then
        decide (levenshteinDistance normalizedSearchTerm normalizedFieldValue ≤ maxTypos)
      else
        false

/-- A JavaScript value as it can arrive in the caseSensitive position of
fuzzyMatch (HTTP GET query parameters arrive as strings; POST bodies can carry
booleans, numbers or null; an absent parameter falls back to the configured
boolean). -/
inductive JSVal where
  | vundef : JSVal
  | vnull : JSVal
  | vbool : Bool → JSVal
  | vnum : Int → JSVal
  | vstr : String → JSVal

/-- JavaScript ToBoolean (truthiness) on JSVal: undefined, null, false, 0 and
the empty string are falsy, everything else truthy. -/
def jsTruthy : JSVal → Bool
  | .vundef => false
  | .vnull => false
  | .vbool b => b
  | .vnum n => n != 0
  | .vstr s => s != ""

/-- fuzzyMatch exactly as index.js executes it when caseSensitive is an
arbitrary JavaScript value: every `caseSensitive ? a : b` ternary tests
truthiness at its use site. -/
def fuzzyMatchJS (enableFuzzySearch : Bool) (typoTolerance : Nat)
    (searchTerm fieldValue : String) (caseSensitive : JSVal) : Bool :=
  if !enableFuzzySearch then
    if jsTruthy caseSensitive then jsIncludes fieldValue searchTerm
    else jsIncludes (jsToLower fieldValue) (jsToLower searchTerm)
  else
    let normalizedSearchTerm :=
      if jsTruthy caseSensitive then searchTerm else jsToLower searchTerm
    let normalizedFieldValue :=
      if jsTruthy caseSensitive then fieldValue else jsToLower fieldValue
    if normalizedSearchTerm.length ≤ 3 then
      jsIncludes normalizedFieldValue normalizedSearchTerm
    else
      let maxTypos := getMaxTypos typoTolerance normalizedSearchTerm.length
      let searchLen := normalizedSearchTerm.length
      let fieldLen := normalizedFieldValue.length
      if searchLen > fieldLen then
        decide (levenshteinDistance normalizedSearchTerm normalizedFieldValue ≤ maxTypos)
      else if (List.range (fieldLen - searchLen + 1)).any (fun i =>
          decide (levenshteinDistance normalizedSearchTerm
            (String.mk ((normalizedFieldValue.data.drop i).take searchLen)) ≤ maxTypos)) then
        true
      else if fieldLen ≤ searchLen + maxTypos then
        decide (levenshteinDistance normalizedSearchTerm normalizedFieldValue ≤ maxTypos)
      else
        false

/-- Left zero-padding to 2 digits, as Date.prototype.toISOString prints
month, day, hour, minute and second fields. -/
def pad2 (n : Nat) : String := (if n < 10 then "0" else "") ++ toString n

/-- Left zero-padding to 3 digits for the milliseconds field. -/
def pad3 (n : Nat) : String :=
  (if n < 100 then (if n < 10 then "00" else "0") else "") ++ toString n

/-- Left zero-padding to 4 digits for the year field. -/
def pad4 (n : Nat) : String :=
  (if n < 1000 then (if n < 100 then (if n < 10 then "000" else "00") else "0") else "") ++
    toString n

/-- Proleptic-Gregorian civil date (year, month, day) from a count of days
since 1970-01-01, the calendar Date.prototype.toISOString prints. -/
def civilFromDays (z0 : Int) : Int × Nat × Nat :=
  let z := z0 + 719468
  let era := Int.ediv z 146097
  let doe := (z - era * 146097).toNat
  let yoe := (doe - doe / 1460 + doe / 36524 - doe / 146096) / 365
  let y := era * 400 + yoe
  let doy := doe - (365 * yoe + yoe / 4 - yoe / 100)
  let mp := (5 * doy + 2) / 153
  let d := doy - (153 * mp + 2) / 5 + 1
  let m := if mp < 10 then mp + 3 else mp - 9
  (if m ≤ 2 then y + 1 else y, m, d)

/-- Date.prototype.toISOString for a UTC time value in milliseconds since the
epoch: the YYYY-MM-DDTHH:MM:SS.sssZ form (years 0-9999). -/
def toISOString (ms : Int) : String :=
  let days := Int.ediv ms 86400000
  let msOfDay := (Int.emod ms 86400000).toNat
  let ymd := civilFromDays days
  let hh := msOfDay / 3600000
  let mm := msOfDay % 3600000 / 60000
  let ss := msOfDay % 60000 / 1000
  let mss := msOfDay % 1000
  pad4 ymd.1.toNat ++ "-" ++ pad2 ymd.2.1 ++ "-" ++ pad2 ymd.2.2 ++ "T" ++
    pad2 hh ++ ":" ++ pad2 mm ++ ":" ++ pad2 ss ++ "." ++ pad3 mss ++ "Z"

/-- The time value new Date(data._seconds * 1000 + data._nanoseconds / 1000000)
receives in transformFirestoreData, for Firestore timestamps
(0 ≤ nanoseconds < 1e9, so the division is a floor). -/
def msOfTimestamp (seconds nanoseconds : Int) : Int :=
  seconds * 1000 + Int.ediv nanoseconds 1000000

/-- A Firestore document value: null, primitive, timestamp-like
(_seconds and _nanoseconds components), reference-like (_path.segments),
array, or map. -/
inductive JSData where
  | vnull : JSData
  | vstr : String → JSData
  | vnum : Int → JSData
  | vbool : Bool → JSData
  | vtimestamp : Int → Int → JSData
  | vref : List String → JSData
  | varr : List JSData → JSData
  | vmap : List (String × JSData) → JSData

mutual

/-- transformFirestoreData from index.js: timestamps become ISO-8601 UTC
strings, references become slash-joined paths, arrays and maps recurse,
primitives and null pass through. -/
def transformFirestoreData : JSData → JSData
  | .vnull => .vnull
  | .vtimestamp s ns => .vstr (toISOString (msOfTimestamp s ns))
  | .vref segments => .vstr (String.intercalate "/" segments)
  | .varr items => .varr (transformList items)
  | .vmap entries => .vmap (transformEntries entries)
  | .vstr s => .vstr s
  | .vnum n => .vnum n
  | .vbool b => .vbool b

/-- data.map(item => transformFirestoreData(item)) over an array. -/
def transformList : List JSData → List JSData
  | [] => []
  | x :: xs => transformFirestoreData x :: transformList xs

/-- Key-wise transform over Object.entries of a map, keys preserved. -/
def transformEntries : List (String × JSData) → List (String × JSData)
  | [] => []
  | (k, v) :: rest => (k, transformFirestoreData v) :: transformEntries rest

end

/-- JavaScript truthiness of a Firestore value (objects and arrays are always
truthy; empty string, 0, false and null are falsy). -/
def jsTruthyData : JSData → Bool
  | .vnull => false
  | .vstr s => s != ""
  | .vnum n => n != 0
  | .vbool b => b
  | .vtimestamp _ _ => true
  | .vref _ => true
  | .varr _ => true
  | .vmap _ => true

mutual

/-- JavaScript String(value) on a Firestore value: numbers and booleans print
canonically, null prints "null", arrays join their elements with commas
(null elements printing empty), plain objects print "[object Object]", and a
Firestore Timestamp instance prints through its toString. -/
def jsStringOf : JSData → String
  | .vnull => "null"
  | .vstr s => s
  | .vnum n => toString n
  | .vbool b => if b then "true" else "false"
  | .vtimestamp s ns =>
      "Timestamp(seconds=" ++ toString s ++ ", nanoseconds=" ++ toString ns ++ ")"
  | .vref _ => "[object Object]"
  | .varr items => jsArrJoin items
  | .vmap _ => "[object Object]"

/-- Array.prototype.toString: elements joined with commas, null rendered empty. -/
def jsArrJoin : List JSData → String
  | [] => ""
  | [JSData.vnull] => ""
  | [x] => jsStringOf x
  | JSData.vnull :: xs => "," ++ jsArrJoin xs
  | x :: xs => jsStringOf x ++ "," ++ jsArrJoin xs

end

/-- JavaScript property read current[key] on a Firestore value: map lookup by
key, array lookup by canonical numeric index, the length property of arrays
and strings, character access on strings; none models undefined. -/
def indexKey : JSData → String → Option JSData
  | .vmap entries, k => (entries.find? (fun e => e.1 == k)).map (fun e => e.2)
  | .varr items, k =>
      if k == "length" then some (.vnum items.length)
      else match canonicalIndex? k with
        | some i => (items.drop i).head?
        | none => none
  | .vstr s, k =>
      if k == "length" then some (.vnum s.length)
      else match canonicalIndex? k with
        | some i => (s.data.drop i).head?.map (fun c => .vstr (String.mk [c]))
        | none => none
  | _, _ => none

/-- getNestedFieldValue from index.js: split the path on dots and reduce,
each step yielding current[key] when current is truthy and the read is not
undefined, and null otherwise. -/
def getNestedFieldValue (obj : JSData) (fieldPath : String) : JSData :=
  (jsSplitDot fieldPath).foldl (fun current key =>
    if jsTruthyData current then
      match indexKey current key with
      | some v => v
      | none => .vnull
    else .vnull) obj

/-- JavaScript property write target[key] = value on a map: replace in place
when the key exists, append otherwise (insertion order preserved). -/
def jsUpsert (entries : List (String × JSData)) (k : String) (v : JSData) :
    List (String × JSData) :=
  if entries.any (fun e => e.1 == k) then
    entries.map (fun e => if e.1 == k then (k, v) else e)
  else entries ++ [(k, v)]

/-- The keys.reduce walk of setNestedFieldValue: intermediate levels are
created (or replaced) with fresh maps when absent or falsy, and the leaf key
receives the value. Writes on non-objects are modelled as no-ops. -/
def setNestedGo : JSData → List String → JSData → JSData
  | obj, [], _ => obj
  | .vmap entries, [k], v => .vmap (jsUpsert entries k v)
  | .vmap entries, k :: rest, v =>
      let child := match (entries.find? (fun e => e.1 == k)).map (fun e => e.2) with
        | some c => if jsTruthyData c then c else JSData.vmap []
        | none => JSData.vmap []
      .vmap (jsUpsert entries k (setNestedGo child rest v))
  | obj, _, _ => obj

/-- setNestedFieldValue from index.js. -/
def setNestedFieldValue (obj : JSData) (fieldPath : String) (v : JSData) : JSData :=
  setNestedGo obj (jsSplitDot fieldPath) v

/-- The final step of the sort comparator for already-prepared string keys:
compareA < compareB gives -1 * sortDirection, compareA > compareB gives
1 * sortDirection, 0 otherwise. -/
def compareJsStrings (sortDirection : Int) (x y : String) : Int :=
  if jsStrLt x y then -1 * sortDirection else if jsStrLt y x then 1 * sortDirection else 0

/-- The final comparator step for numeric keys. -/
def compareJsInts (sortDirection : Int) (x y : Int) : Int :=
  if x < y then -1 * sortDirection else if y < x then 1 * sortDirection else 0

/-- The body of the results.sort comparator from performSearch, after the two
sortBy field reads: null/undefined pairs compare 0, a null left operand sorts
after anything non-null (1, direction never applied), a null right operand
gives -1 likewise; string pairs compare trimmed and lowercased, number pairs
numerically, every other combination by trimmed lowercased String(value).
(Raw Firestore document values are never JavaScript Date instances, so the
comparator's instanceof Date branch is unreachable on this domain.) -/
def compareValues (sortDirection : Int) (valueA valueB : JSData) : Int :=
  match valueA, valueB with
  | .vnull, .vnull => 0
  | .vnull, _ => 1
  | _, .vnull => -1
  | .vstr sa, .vstr sb => compareJsStrings sortDirection (jsTrimLower sa) (jsTrimLower sb)
  | .vnum na, .vnum nb => compareJsInts sortDirection na nb
  | va, vb =>
      compareJsStrings sortDirection (jsTrimLower (jsStringOf va)) (jsTrimLower (jsStringOf vb))

/-- The full comparator: read the sortBy path from both candidates' raw
(pre-normalization) document data, then compare. -/
def compareForSort (sortBy : String) (sortDirection : Int) (a b : JSData) : Int :=
  compareValues sortDirection (getNestedFieldValue a sortBy) (getNestedFieldValue b sortBy)

/-- checkRateLimit from index.js, for one client key: the stored request
timestamps are filtered to those with now - t < windowMs, the surviving count
is compared with the per-window limit, and now is appended only when admitted.
A limit of 0 disables rate limiting entirely. Returns (allowed, new window). -/
def checkRateLimit (limitPerWindow windowMs now : Nat) (requests : List Nat) :
    Bool × List Nat :=
  if limitPerWindow == 0 then (true, requests)
  else
    let kept := requests.filter (fun t => decide (now - t < windowMs))
    if limitPerWindow ≤ kept.length then (false, kept)
    else (true, kept ++ [now])

/-- A Firestore document snapshot: doc.id and doc.data(). -/
structure FsDoc where
  id : String
  data : JSData

/-- One query issued to the external store by performSearch: either the
optimized half-open range query (field, lower bound, exclusive upper bound,
optional orderBy hint, fetch limit) or a bounded collection scan (optional
orderBy hint, fetch limit). -/
inductive StoreCall where
  | rangeQuery : String → String → String → Option (String × String) → Nat → StoreCall
  | scanQuery : Option (String × String) → Nat → StoreCall
deriving DecidableEq, Repr

/-- The external Firestore collection, as the capability performSearch
consumes: each query either yields an ordered document list or raises a store
error. -/
structure Store where
  rangeQuery : String → String → String → Option (String × String) → Nat →
    Except String (List FsDoc)
  scanQuery : Option (String × String) → Nat → Except String (List FsDoc)

/-- The request parameters performSearch receives after validation. -/
structure SearchParams where
  searchFields : List String
  returnFields : Option (List String)
  searchValue : String
  limit : Nat
  caseSensitive : Bool
  sortBy : Option String
  direction : Option String

/-- The test direction && ['desc', 'descending'].includes(direction.toLowerCase()). -/
def isDescDirection : Option String → Bool
  | some d => jsToLower d == "desc" || jsToLower d == "descending"
  | none => false

/-- The recurring guard sortBy && sortBy.trim() !== ''. -/
def sortByGiven : Option String → Bool
  | some s => jsTrim s != ""
  | none => false

/-- The orderBy(sortBy, sortDirection) hint both the optimized query and the
bounded scan attach when sortBy is given. -/
def mkSortHint (p : SearchParams) : Option (String × String) :=
  if sortByGiven p.sortBy then
    some (match p.sortBy with | some s => s | none => "",
      if isDescDirection p.direction then "desc" else "asc")
  else none

/-- The exclusive upper bound of the optimized prefix range:
searchValue.slice(0, -1) + String.fromCharCode(last char code + 1). -/
def incLastChar (s : String) : String :=
  match s.data.getLast? with
  | some c => String.mk (s.data.dropLast ++ [Char.ofNat (c.toNat + 1)])
  | none => s

/-- The per-document match test of the filter loop: some searchable field has
a non-null, non-undefined value whose String() form fuzzy-matches searchValue
(the for loop breaks at the first hit). -/
def docMatches (enableFuzzy : Bool) (tol : Nat) (searchFields : List String)
    (searchValue : String) (caseSensitive : Bool) (data : JSData) : Bool :=
  searchFields.any fun field =>
    match getNestedFieldValue data field with
    | .vnull => false
    | v => fuzzyMatch enableFuzzy tol searchValue (jsStringOf v) caseSensitive

/-- The object literal { id: doc.id, ...data } (later spread entries override
the id key on collision; doc.data() is always an object). -/
def spreadIdData (docId : String) (data : JSData) : JSData :=
  match data with
  | .vmap entries =>
      .vmap (entries.foldl (fun acc e => jsUpsert acc e.1 e.2) [("id", JSData.vstr docId)])
  | _ => .vmap [("id", JSData.vstr docId)]

/-- The result document built for a match: the projected returnFields (each
read from data and written by setNestedFieldValue into { id: doc.id }) when a
non-empty returnFields list is configured, the whole document otherwise. -/
def buildResultDoc (returnFields : Option (List String)) (docId : String)
    (data : JSData) : JSData :=
  match returnFields with
  | some fields =>
      if fields.length > 0 then
        fields.foldl
          (fun acc field => setNestedFieldValue acc field (getNestedFieldValue data field))
          (JSData.vmap [("id", JSData.vstr docId)])
      else spreadIdData docId data
  | none => spreadIdData docId data

/-- The snapshot.forEach filter loop: walk the candidate documents in order,
skipping once matchCount reaches limit, and collect for each match the pair
(rawDoc result document, originalData raw document data). -/
def collectMatches (enableFuzzy : Bool) (tol : Nat) (searchFields : List String)
    (returnFields : Option (List String)) (searchValue : String) (caseSensitive : Bool)
    (limit : Nat) (docs : List FsDoc) : List (JSData × JSData) :=
  docs.foldl (fun results doc =>
    if limit ≤ results.length then results
    else if docMatches enableFuzzy tol searchFields searchValue caseSensitive doc.data then
      results ++ [(buildResultDoc returnFields doc.id doc.data, doc.data)]
    else results) []

/-- results.sort(comparator) when sortBy is given (stable, comparing the raw
originalData values), the scan order otherwise. -/
def sortResults (sortBy : Option String) (direction : Option String)
    (results : List (JSData × JSData)) : List (JSData × JSData) :=
  if sortByGiven sortBy then
    let sortDirection : Int := if isDescDirection direction then -1 else 1
    let sb := match sortBy with | some s => s | none => ""
    results.mergeSort (fun a b => compareForSort sb sortDirection a.2 b.2 ≤ 0)
  else results

/-- The transformedResults of the main phase: filter the snapshot, sort when
sortBy is given, and transform each rawDoc to clean JSON. -/
def mainTransformed (enableFuzzy : Bool) (tol : Nat) (p : SearchParams)
    (docs : List FsDoc) : List JSData :=
  (sortResults p.sortBy p.direction (collectMatches enableFuzzy tol p.searchFields
    p.returnFields p.searchValue p.caseSensitive p.limit docs)).map
    (fun item => transformFirestoreData item.1)

/-- The single fallback collection scan of min(limit * 3, 100) documents that
runs when the optimized query produced zero transformed results: its matches
(same filter logic, not sorted) are returned transformed when non-empty, the
main (empty) transformedResults are returned when it finds nothing, and its
own store error is caught and logged - execution continues and the main
transformedResults are still returned. -/
def runFallback (store : Store) (enableFuzzy : Bool) (tol : Nat) (p : SearchParams)
    (transformedResults : List JSData) (calls : List StoreCall) :
    Except String (List JSData) × List StoreCall :=
  match store.scanQuery none (min (p.limit * 3) 100) with
  | Except.ok fallbackDocs =>
    if (collectMatches enableFuzzy tol p.searchFields p.returnFields p.searchValue
        p.caseSensitive p.limit fallbackDocs).length > 0 then
      (Except.ok ((collectMatches enableFuzzy tol p.searchFields p.returnFields p.searchValue
          p.caseSensitive p.limit fallbackDocs).map (fun item => transformFirestoreData item.1)),
        calls ++ [StoreCall.scanQuery none (min (p.limit * 3) 100)])
    else
      (Except.ok transformedResults, calls ++ [StoreCall.scanQuery none (min (p.limit * 3) 100)])
  | Except.error _ =>
      (Except.ok transformedResults, calls ++ [StoreCall.scanQuery none (min (p.limit * 3) 100)])

/-- Everything performSearch does after the main snapshot arrives: the
snapshot.empty early return (which precedes - and therefore skips - the
fallback), the filter-sort-transform pipeline, and the fallback scan when the
optimized query was used and zero transformed results remain. Returns the
outcome paired with the trace of store calls issued. -/
def processSnapshot (store : Store) (enableFuzzy : Bool) (tol : Nat) (p : SearchParams)
    (usedOptimizedQuery : Bool) (docs : List FsDoc) (calls : List StoreCall) :
    Except String (List JSData) × List StoreCall :=
  if docs.isEmpty then (Except.ok [], calls)
  else if (mainTransformed enableFuzzy tol p docs).length == 0 && usedOptimizedQuery then
    runFallback store enableFuzzy tol p (mainTransformed enableFuzzy tol p docs) calls
  else
    (Except.ok (mainTransformed enableFuzzy tol p docs), calls)

/-- searchFields[0], the first configured searchable field, the one the
optimized range query targets. -/
def primaryField (p : SearchParams) : String := p.searchFields.headD ""

/-- performSearch from the README variant of functions/index.js: when fuzzy
search is disabled, the search value has at least 3 characters and the search
is case-sensitive, try the optimized half-open range query on the first
searchable field fetching limit * 2 documents (with the orderBy hint when
sortBy is given); on its store error fall back - the error is caught locally -
to the bounded scan of min(limit * 5, 500) documents, which is also the path
taken when the optimized preconditions fail. A store error of the bounded
scan escapes to the outer catch and is rethrown as a fatal
"Failed to search collection" error. -/
def performSearch (store : Store) (enableFuzzy : Bool) (tol : Nat) (p : SearchParams) :
    Except String (List JSData) × List StoreCall :=
  if !enableFuzzy && decide (3 ≤ p.searchValue.length) && p.caseSensitive then
    match store.rangeQuery (primaryField p) p.searchValue
        (incLastChar p.searchValue) (mkSortHint p) (p.limit * 2) with
    | Except.ok docs =>
        processSnapshot store enableFuzzy tol p true docs
          [StoreCall.rangeQuery (primaryField p) p.searchValue
            (incLastChar p.searchValue) (mkSortHint p) (p.limit * 2)]
    | Except.error _ =>
      match store.scanQuery (mkSortHint p) (min (p.limit * 5) 500) with
      | Except.ok docs =>
          processSnapshot store enableFuzzy tol p false docs
            [StoreCall.rangeQuery (primaryField p) p.searchValue
              (incLastChar p.searchValue) (mkSortHint p) (p.limit * 2),
             StoreCall.scanQuery (mkSortHint p) (min (p.limit * 5) 500)]
      | Except.error msg =>
          (Except.error ("Failed to search collection: " ++ msg),
           [StoreCall.rangeQuery (primaryField p) p.searchValue
              (incLastChar p.searchValue) (mkSortHint p) (p.limit * 2),
            StoreCall.scanQuery (mkSortHint p) (min (p.limit * 5) 500)])
  else
    match store.scanQuery (mkSortHint p) (min (p.limit * 5) 500) with
    | Except.ok docs =>
        processSnapshot store enableFuzzy tol p false docs
          [StoreCall.scanQuery (mkSortHint p) (min (p.limit * 5) 500)]
    | Except.error msg =>
        (Except.error ("Failed to search collection: " ++ msg),
         [StoreCall.scanQuery (mkSortHint p) (min (p.limit * 5) 500)])

/-- A document whose name field does not contain "abc": no match for the
concrete searches below. -/
def docZzz : FsDoc := ⟨"d1", .vmap [("name", .vstr "zzz")]⟩

/-- A document whose name field contains "abc" as a prefix: a match for the
concrete searches below. -/
def docAbc : FsDoc := ⟨"d2", .vmap [("name", .vstr "abcdef")]⟩

/-- A request meeting the OptimizedScan preconditions: fuzzy disabled (passed
separately), case-sensitive, searchValue "abc" of length 3, limit 10. -/
def pOpt : SearchParams := ⟨["name"], none, "abc", 10, true, none, none⟩

/-- The same request with caseSensitive false: OptimizedScan preconditions
fail. -/
def pScan : SearchParams := ⟨["name"], none, "abc", 10, false, none, none⟩

/-- A store whose every query answers with the matching document. -/
def storeOk : Store := ⟨fun _ _ _ _ _ => Except.ok [docAbc], fun _ _ => Except.ok [docAbc]⟩

/-- A store whose range query succeeds with zero documents while collection
scans would return a matching document. -/
def storeEmptyRange : Store := ⟨fun _ _ _ _ _ => Except.ok [], fun _ _ => Except.ok [docAbc]⟩

/-- A store whose range query returns only a non-matching document and whose
collection scans raise a store error. -/
def storeFallbackErr : Store :=
  ⟨fun _ _ _ _ _ => Except.ok [docZzz], fun _ _ => Except.error "fallback unavailable"⟩

/-- A store whose range query returns only a non-matching document and whose
collection scans return a matching one. -/
def storeFallbackOk : Store :=
  ⟨fun _ _ _ _ _ => Except.ok [docZzz], fun _ _ => Except.ok [docAbc]⟩

/-- A store whose range query raises a store error while collection scans
succeed. -/
def storeRangeErr : Store :=
  ⟨fun _ _ _ _ _ => Except.error "range failed", fun _ _ => Except.ok [docAbc]⟩

/-- A store whose every query raises a store error. -/
def storeScanErr : Store :=
  ⟨fun _ _ _ _ _ => Except.error "range failed", fun _ _ => Except.error "scan failed"⟩

/-- Sorting an empty result list yields an empty list. -/
theorem sortResults_nil (sortBy direction : Option String) :
    sortResults sortBy direction [] = [] := by
  unfold sortResults
  split <;> simp [List.mergeSort]

/-- The fallback phase appends exactly one store call (the fallback scan of
min(limit * 3, 100) documents) to the trace, whatever the store answers. -/
theorem runFallback_snd (store : Store) (e : Bool) (t : Nat) (p : SearchParams)
    (tr : List JSData) (calls : List StoreCall) :
    (runFallback store e t p tr calls).2 =
      calls ++ [StoreCall.scanQuery none (min (p.limit * 3) 100)] := by
  unfold runFallback
  split
  · split <;> rfl
  · rfl

/-- The fallback phase always returns a success outcome: even its store error
is caught and the main transformedResults are returned. -/
theorem runFallback_fst_ok (store : Store) (e : Bool) (t : Nat) (p : SearchParams)
    (tr : List JSData) (calls : List StoreCall) :
    ∃ out, (runFallback store e t p tr calls).1 = Except.ok out := by
  unfold runFallback
  split
  · split
    · exact ⟨_, rfl⟩
    · exact ⟨_, rfl⟩
  · exact ⟨_, rfl⟩

/-- When the optimized query was not used, processing the snapshot issues no
further store call. -/
theorem processSnapshot_snd_not_optimized (store : Store) (e : Bool) (t : Nat)
    (p : SearchParams) (docs : List FsDoc) (calls : List StoreCall) :
    (processSnapshot store e t p false docs calls).2 = calls := by
  unfold processSnapshot
  simp only [Bool.and_false]
  split <;> rfl

/-- Processing a snapshot only ever appends store calls to the trace. -/
theorem processSnapshot_snd_extend (store : Store) (e : Bool) (t : Nat)
    (p : SearchParams) (u : Bool) (docs : List FsDoc) (calls : List StoreCall) :
    ∃ extra, (processSnapshot store e t p u docs calls).2 = calls ++ extra := by
  unfold processSnapshot
  split
  · exact ⟨[], by simp⟩
  · split
    · exact ⟨_, runFallback_snd store e t p _ calls⟩
    · exact ⟨[], by simp⟩

/-- Processing a snapshot always produces a success outcome; only snapshot
acquisition can fail the search. -/
theorem processSnapshot_fst_ok (store : Store) (e : Bool) (t : Nat)
    (p : SearchParams) (u : Bool) (docs : List FsDoc) (calls : List StoreCall) :
    ∃ out, (processSnapshot store e t p u docs calls).1 = Except.ok out := by
  unfold processSnapshot
  split
  · exact ⟨[], rfl⟩
  · split
    · exact runFallback_fst_ok store e t p _ calls
    · exact ⟨_, rfl⟩

/-- C2: the planner issues the optimized prefix-range query - on the first
configured searchable field, from searchValue to its increment-last-character
bound, with the store-level sort hint and a fetch limit of limit * 2 - as its
first store call exactly when fuzzy search is disabled, the search value has
at least 3 characters and caseSensitive is true; in every other case the one
and only store call is the bounded scan of min(limit * 5, 500) documents with
the sort hint; and when the optimized query raises a store error the planner
performs that same bounded scan right after it. -/
theorem c2_strategy_selection (store : Store) (enableFuzzy : Bool) (tol : Nat)
    (p : SearchParams) :
    ((!enableFuzzy && decide (3 ≤ p.searchValue.length) && p.caseSensitive) = true →
      (performSearch store enableFuzzy tol p).2.head? =
        some (StoreCall.rangeQuery (primaryField p) p.searchValue
          (incLastChar p.searchValue) (mkSortHint p) (p.limit * 2))) ∧
    ((!enableFuzzy && decide (3 ≤ p.searchValue.length) && p.caseSensitive) = false →
      (performSearch store enableFuzzy tol p).2 =
        [StoreCall.scanQuery (mkSortHint p) (min (p.limit * 5) 500)]) ∧
    (∀ msg, (!enableFuzzy && decide (3 ≤ p.searchValue.length) && p.caseSensitive) = true →
      store.rangeQuery (primaryField p) p.searchValue (incLastChar p.searchValue)
        (mkSortHint p) (p.limit * 2) = Except.error msg →
      (performSearch store enableFuzzy tol p).2 =
        [StoreCall.rangeQuery (primaryField p) p.searchValue
          (incLastChar p.searchValue) (mkSortHint p) (p.limit * 2),
         StoreCall.scanQuery (mkSortHint p) (min (p.limit * 5) 500)]) := by
  refine ⟨?_, ?_, ?_⟩
  · intro hcond
    unfold performSearch
    rw [hcond]
    simp only [if_true]
    cases hq : store.rangeQuery (primaryField p) p.searchValue
        (incLastChar p.searchValue) (mkSortHint p) (p.limit * 2) with
    | ok docs =>
        obtain ⟨extra, hx⟩ := processSnapshot_snd_extend store enableFuzzy tol p true docs
          [StoreCall.rangeQuery (primaryField p) p.searchValue
            (incLastChar p.searchValue) (mkSortHint p) (p.limit * 2)]
        rw [hx]
        rfl
    | error msg =>
        cases hs : store.scanQuery (mkSortHint p) (min (p.limit * 5) 500) with
        | ok docs =>
            obtain ⟨extra, hx⟩ := processSnapshot_snd_extend store enableFuzzy tol p false docs
              [StoreCall.rangeQuery (primaryField p) p.searchValue
                (incLastChar p.searchValue) (mkSortHint p) (p.limit * 2),
               StoreCall.scanQuery (mkSortHint p) (min (p.limit * 5) 500)]
            rw [hx]
            rfl
        | error msg2 => rfl
  · intro hcond
    unfold performSearch
    rw [hcond]
    simp only [Bool.false_eq_true, if_false]
    cases hs : store.scanQuery (mkSortHint p) (min (p.limit * 5) 500) with
    | ok docs => exact processSnapshot_snd_not_optimized store enableFuzzy tol p docs _
    | error msg => rfl
  · intro msg hcond hq
    unfold performSearch
    rw [hcond]
    simp only [if_true]
    rw [hq]
    cases hs : store.scanQuery (mkSortHint p) (min (p.limit * 5) 500) with
    | ok docs => exact processSnapshot_snd_not_optimized store enableFuzzy tol p docs _
    | error msg2 => rfl

/-- When the optimized snapshot is non-empty but the filter finds no match,
processing reduces to the single fallback scan over empty main results. -/
theorem processSnapshot_no_match (store : Store) (e : Bool) (t : Nat) (p : SearchParams)
    (docs : List FsDoc) (calls : List StoreCall)
    (hne : docs ≠ [])
    (hzero : collectMatches e t p.searchFields p.returnFields p.searchValue
      p.caseSensitive p.limit docs = []) :
    processSnapshot store e t p true docs calls = runFallback store e t p [] calls := by
  have hie : docs.isEmpty = false := by
    cases docs with
    | nil => exact absurd rfl hne
    | cons a l => rfl
  have hmt : mainTransformed e t p docs = [] := by
    unfold mainTransformed
    rw [hzero, sortResults_nil]
    rfl
  unfold processSnapshot
  rw [hie, hmt]
  simp

/-- C3 (amended): when the optimized query was used, its snapshot was
non-empty, and the match count after filtering is zero, exactly one
FallbackScan bounded to min(limit * 3, 100) documents runs - the trace is
precisely the range query followed by that one scan, so no further fallback
runs - and whenever the fallback scan's candidate set contains at least one
matching document (same matching logic), the final result set is non-empty.
The original claim is refuted by c3_counterexample: when the optimized query
succeeds with zero documents, performSearch returns empty immediately
(snapshot.empty early return) and the fallback never runs. -/
theorem c3_single_fallback (store : Store) (e : Bool) (t : Nat) (p : SearchParams)
    (docs : List FsDoc)
    (hcond : (!e && decide (3 ≤ p.searchValue.length) && p.caseSensitive) = true)
    (hq : store.rangeQuery (primaryField p) p.searchValue (incLastChar p.searchValue)
      (mkSortHint p) (p.limit * 2) = Except.ok docs)
    (hne : docs ≠ [])
    (hzero : collectMatches e t p.searchFields p.returnFields p.searchValue
      p.caseSensitive p.limit docs = []) :
    (performSearch store e t p).2 =
      [StoreCall.rangeQuery (primaryField p) p.searchValue (incLastChar p.searchValue)
        (mkSortHint p) (p.limit * 2),
       StoreCall.scanQuery none (min (p.limit * 3) 100)] ∧
    (∀ fdocs, store.scanQuery none (min (p.limit * 3) 100) = Except.ok fdocs →
      collectMatches e t p.searchFields p.returnFields p.searchValue
        p.caseSensitive p.limit fdocs ≠ [] →
      ∃ out, (performSearch store e t p).1 = Except.ok out ∧ out ≠ []) := by
  have hps : performSearch store e t p = runFallback store e t p []
      [StoreCall.rangeQuery (primaryField p) p.searchValue (incLastChar p.searchValue)
        (mkSortHint p) (p.limit * 2)] := by
    unfold performSearch
    rw [hcond]
    simp only [if_true]
    rw [hq]
    exact processSnapshot_no_match store e t p docs _ hne hzero
  constructor
  · rw [hps, runFallback_snd]
    rfl
  · intro fdocs hfd hfne
    rw [hps]
    unfold runFallback
    rw [hfd]
    dsimp only
    have hpos : (collectMatches e t p.searchFields p.returnFields p.searchValue
        p.caseSensitive p.limit fdocs).length > 0 := List.length_pos.mpr hfne
    rw [if_pos hpos]
    refine ⟨_, rfl, ?_⟩
    simp [hfne]

/-- C1 (amended): a store error during the BoundedScan phase propagates as a
fatal "Failed to search collection" failure of the whole call (both when
BoundedScan is the first strategy and when it runs after a failed
OptimizedScan); a store error during OptimizedScan alone is recovered by
downgrading to BoundedScan (the call still succeeds); but a store error
during FallbackScan is caught locally: the call succeeds with the empty main
result instead of failing, refuting the original claim (c1_counterexample). -/
theorem c1_failure_semantics (store : Store) (e : Bool) (t : Nat) (p : SearchParams)
    (msg msg2 : String) :
    (((!e && decide (3 ≤ p.searchValue.length) && p.caseSensitive) = false →
      store.scanQuery (mkSortHint p) (min (p.limit * 5) 500) = Except.error msg →
      performSearch store e t p =
        (Except.error ("Failed to search collection: " ++ msg),
         [StoreCall.scanQuery (mkSortHint p) (min (p.limit * 5) 500)]))) ∧
    (((!e && decide (3 ≤ p.searchValue.length) && p.caseSensitive) = true →
      store.rangeQuery (primaryField p) p.searchValue (incLastChar p.searchValue)
        (mkSortHint p) (p.limit * 2) = Except.error msg2 →
      store.scanQuery (mkSortHint p) (min (p.limit * 5) 500) = Except.error msg →
      performSearch store e t p =
        (Except.error ("Failed to search collection: " ++ msg),
         [StoreCall.rangeQuery (primaryField p) p.searchValue (incLastChar p.searchValue)
            (mkSortHint p) (p.limit * 2),
          StoreCall.scanQuery (mkSortHint p) (min (p.limit * 5) 500)]))) ∧
    (((!e && decide (3 ≤ p.searchValue.length) && p.caseSensitive) = true →
      store.rangeQuery (primaryField p) p.searchValue (incLastChar p.searchValue)
        (mkSortHint p) (p.limit * 2) = Except.error msg2 →
      ∀ docs, store.scanQuery (mkSortHint p) (min (p.limit * 5) 500) = Except.ok docs →
      ∃ out, (performSearch store e t p).1 = Except.ok out)) ∧
    (((!e && decide (3 ≤ p.searchValue.length) && p.caseSensitive) = true →
      ∀ docs, store.rangeQuery (primaryField p) p.searchValue (incLastChar p.searchValue)
        (mkSortHint p) (p.limit * 2) = Except.ok docs →
      docs ≠ [] →
      collectMatches e t p.searchFields p.returnFields p.searchValue
        p.caseSensitive p.limit docs = [] →
      store.scanQuery none (min (p.limit * 3) 100) = Except.error msg2 →
      performSearch store e t p =
        (Except.ok [],
         [StoreCall.rangeQuery (primaryField p) p.searchValue (incLastChar p.searchValue)
            (mkSortHint p) (p.limit * 2),
          StoreCall.scanQuery none (min (p.limit * 3) 100)]))) := by
  refine ⟨?_, ?_, ?_, ?_⟩
  · intro hcond hs
    unfold performSearch
    rw [hcond]
    simp only [Bool.false_eq_true, if_false]
    rw [hs]
  · intro hcond hq hs
    unfold performSearch
    rw [hcond]
    simp only [if_true]
    rw [hq, hs]
  · intro hcond hq docs hs
    unfold performSearch
    rw [hcond]
    simp only [if_true]
    rw [hq, hs]
    exact processSnapshot_fst_ok store e t p false docs _
  · intro hcond docs hq hne hzero hfe
    unfold performSearch
    rw [hcond]
    simp only [if_true]
    rw [hq]
    dsimp only
    rw [processSnapshot_no_match store e t p docs _ hne hzero]
    unfold runFallback
    rw [hfe]
    rfl

/-- C1 counterexample: with a store whose fallback scan raises an error, a
search that reaches the FallbackScan phase (the trace shows the fallback call
after the optimized range query) returns a successful empty result - the
store error does not propagate as a fatal failure, contrary to the claim. -/
theorem c1_counterexample :
    performSearch storeFallbackErr false 4 pOpt =
      (Except.ok [],
       [StoreCall.rangeQuery "name" "abc" "abd" none 20, StoreCall.scanQuery none 30]) ∧
    storeFallbackErr.scanQuery none 30 = Except.error "fallback unavailable" :=
  ⟨rfl, rfl⟩

/-- C1 witness: the amended failure semantics exhibited on concrete stores -
a bounded-scan error is fatal on both entry paths, an optimized-scan error
alone still yields a success, and a fallback-scan error yields a successful
empty result. -/
theorem c1_witness :
    performSearch storeScanErr false 4 pScan =
      (Except.error "Failed to search collection: scan failed",
       [StoreCall.scanQuery none 50]) ∧
    performSearch storeScanErr false 4 pOpt =
      (Except.error "Failed to search collection: scan failed",
       [StoreCall.rangeQuery "name" "abc" "abd" none 20, StoreCall.scanQuery none 50]) ∧
    (∃ out, (performSearch storeRangeErr false 4 pOpt).1 = Except.ok out) ∧
    performSearch storeFallbackErr false 4 pOpt =
      (Except.ok [],
       [StoreCall.rangeQuery "name" "abc" "abd" none 20, StoreCall.scanQuery none 30]) :=
  ⟨(c1_failure_semantics storeScanErr false 4 pScan "scan failed" "x").1 rfl rfl,
   (c1_failure_semantics storeScanErr false 4 pOpt "scan failed" "range failed").2.1 rfl rfl rfl,
   (c1_failure_semantics storeRangeErr false 4 pOpt "x" "range failed").2.2.1 rfl rfl
     [docAbc] rfl,
   (c1_failure_semantics storeFallbackErr false 4 pOpt "x" "fallback unavailable").2.2.2 rfl
     [docZzz] rfl (List.cons_ne_nil _ _) rfl rfl⟩

/-- C2 witness: on concrete stores and requests, the optimized range query
(fetch limit 20 = limit * 2) leads when the preconditions hold, the bounded
scan of 50 = min(limit * 5, 500) documents is the only call when
caseSensitive is false, and the bounded scan directly follows a failed range
query. -/
theorem c2_witness :
    (performSearch storeOk false 4 pOpt).2.head? =
      some (StoreCall.rangeQuery "name" "abc" "abd" none 20) ∧
    (performSearch storeOk false 4 pScan).2 = [StoreCall.scanQuery none 50] ∧
    (performSearch storeRangeErr false 4 pOpt).2 =
      [StoreCall.rangeQuery "name" "abc" "abd" none 20, StoreCall.scanQuery none 50] :=
  ⟨(c2_strategy_selection storeOk false 4 pOpt).1 rfl,
   (c2_strategy_selection storeOk false 4 pScan).2.1 rfl,
   (c2_strategy_selection storeRangeErr false 4 pOpt).2.2 "range failed" rfl rfl⟩

/-- C3 counterexample: the optimized query succeeds with zero documents, the
fallback candidate set contains a matching document, and yet performSearch
returns the empty result with a single-entry trace - no fallback scan runs
and the final result set is empty, contrary to the claim. -/
theorem c3_counterexample :
    performSearch storeEmptyRange false 4 pOpt =
      (Except.ok [], [StoreCall.rangeQuery "name" "abc" "abd" none 20]) ∧
    collectMatches false 4 ["name"] none "abc" true 10 [docAbc] ≠ [] :=
  ⟨rfl, by intro h; exact nomatch h⟩

/-- C3 witness: with a non-empty optimized snapshot that yields zero matches
and a fallback scan that returns a matching document, the trace is exactly
the range query plus one fallback scan and the final result is non-empty. -/
theorem c3_witness :
    (performSearch storeFallbackOk false 4 pOpt).2 =
      [StoreCall.rangeQuery "name" "abc" "abd" none 20, StoreCall.scanQuery none 30] ∧
    (∃ out, (performSearch storeFallbackOk false 4 pOpt).1 = Except.ok out ∧ out ≠ []) := by
  have h := c3_single_fallback storeFallbackOk false 4 pOpt [docZzz] rfl rfl
    (List.cons_ne_nil _ _) rfl
  exact ⟨h.1, h.2 [docAbc] rfl (by intro hh; exact nomatch hh)⟩

/-- C4 (amended): the normalizer maps every timestamp-like value to the
single ISO-8601 UTC string toISO(seconds * 1000 + nanoseconds / 1e6); the
input with seconds 1739112493 and nanoseconds 753000000 normalizes to exactly
"2025-02-09T14:48:13.753Z" (1739112493 s after the epoch falls on February 9,
2025, not on January 9 as the original claim stated - see
c4_counterexample). -/
theorem c4_timestamp_normalization :
    (∀ s ns : Int, transformFirestoreData (.vtimestamp s ns) =
      .vstr (toISOString (msOfTimestamp s ns))) ∧
    transformFirestoreData (.vtimestamp 1739112493 753000000) =
      .vstr "2025-02-09T14:48:13.753Z" :=
  ⟨fun _ _ => rfl, rfl⟩

/-- C4 counterexample: the timestamp with seconds 1739112493 and nanoseconds
753000000 does not normalize to the claimed string "2025-01-09T14:01:33.753Z". -/
theorem c4_counterexample :
    transformFirestoreData (.vtimestamp 1739112493 753000000) ≠
      .vstr "2025-01-09T14:01:33.753Z" := by
  intro h
  rw [show transformFirestoreData (.vtimestamp 1739112493 753000000) =
      JSData.vstr "2025-02-09T14:48:13.753Z" from rfl] at h
  simp at h

/-- C5: for every pair of candidates, every sortBy path and every direction
multiplier, the comparator on pre-normalization raw values returns 0 when
both values at sortBy are null/missing, 1 (a after b) when only the first is
null, and -1 when only the second is null - the direction multiplier is never
applied to these null comparisons, so nulls sort last regardless of
direction. -/
theorem c5_null_sort_order (a b : JSData) (sortBy : String) (d : Int) :
    (getNestedFieldValue a sortBy = JSData.vnull →
      getNestedFieldValue b sortBy = JSData.vnull →
      compareForSort sortBy d a b = 0) ∧
    (getNestedFieldValue a sortBy = JSData.vnull →
      getNestedFieldValue b sortBy ≠ JSData.vnull →
      compareForSort sortBy d a b = 1) ∧
    (getNestedFieldValue a sortBy ≠ JSData.vnull →
      getNestedFieldValue b sortBy = JSData.vnull →
      compareForSort sortBy d a b = -1) := by
  refine ⟨?_, ?_, ?_⟩
  · intro ha hb
    unfold compareForSort
    rw [ha, hb]
    rfl
  · intro ha hb
    unfold compareForSort
    rw [ha]
    cases hvb : getNestedFieldValue b sortBy with
    | vnull => exact absurd hvb hb
    | vstr s => rfl
    | vnum n => rfl
    | vbool v => rfl
    | vtimestamp s ns => rfl
    | vref segs => rfl
    | varr items => rfl
    | vmap entries => rfl
  · intro ha hb
    unfold compareForSort
    rw [hb]
    cases hva : getNestedFieldValue a sortBy with
    | vnull => exact absurd hva ha
    | vstr s => rfl
    | vnum n => rfl
    | vbool v => rfl
    | vtimestamp s ns => rfl
    | vref segs => rfl
    | varr items => rfl
    | vmap entries => rfl

/-- C5 witness: concrete candidates with and without a score field compare as
0, 1 and -1 under the descending multiplier. -/
theorem c5_witness :
    compareForSort "score" 1 (JSData.vmap []) (JSData.vmap []) = 0 ∧
    compareForSort "score" (-1) (JSData.vmap [])
      (JSData.vmap [("score", JSData.vnum 5)]) = 1 ∧
    compareForSort "score" (-1) (JSData.vmap [("score", JSData.vnum 5)])
      (JSData.vmap []) = -1 :=
  ⟨(c5_null_sort_order (JSData.vmap []) (JSData.vmap []) "score" 1).1 rfl rfl,
   (c5_null_sort_order (JSData.vmap []) (JSData.vmap [("score", JSData.vnum 5)])
     "score" (-1)).2.1 rfl (by intro h; exact nomatch h),
   (c5_null_sort_order (JSData.vmap [("score", JSData.vnum 5)]) (JSData.vmap [])
     "score" (-1)).2.2 (by intro h; exact nomatch h) rfl⟩

/-- C6: with fuzzy search enabled, case-sensitive matching and
typoTolerance 4, the matcher allows maxTypos = floor(8 / 4) = 2 edits for the
8-character term "Firebase": it matches "Firebaze" (1 substitution) and
"Firebaes" (2 edits), and returns false against any field value whose every
same-length window and whole-field comparison requires at least 3 edits. -/
theorem c6_typo_tolerance :
    fuzzyMatch true 4 "Firebase" "Firebaze" true = true ∧
    fuzzyMatch true 4 "Firebase" "Firebaes" true = true ∧
    getMaxTypos 4 "Firebase".length = 2 ∧
    (∀ field : String,
      (∀ i ∈ List.range (field.length - 8 + 1),
        3 ≤ levenshteinDistance "Firebase" (String.mk ((field.data.drop i).take 8))) →
      3 ≤ levenshteinDistance "Firebase" field →
      fuzzyMatch true 4 "Firebase" field true = false) := by
  refine ⟨rfl, rfl, rfl, ?_⟩
  intro field hwin hfull
  show (if 8 > field.length
      then decide (levenshteinDistance "Firebase" field ≤ 2)
      else if ((List.range (field.length - 8 + 1)).any (fun i =>
          decide (levenshteinDistance "Firebase"
            (String.mk ((field.data.drop i).take 8)) ≤ 2))) = true then true
      else if field.length ≤ 8 + 2 then decide (levenshteinDistance "Firebase" field ≤ 2)
      else false) = false
  by_cases h1 : 8 > field.length
  · rw [if_pos h1]
    simp only [decide_eq_false_iff_not]
    omega
  · rw [if_neg h1]
    have hany : (List.range (field.length - 8 + 1)).any (fun i =>
        decide (levenshteinDistance "Firebase"
          (String.mk ((field.data.drop i).take 8)) ≤ 2)) = false := by
      rw [List.any_eq_false]
      intro i hi
      have hw := hwin i hi
      simp only [decide_eq_true_eq]
      omega
    rw [hany]
    simp only [Bool.false_eq_true, if_false]
    by_cases h2 : field.length ≤ 8 + 2
    · rw [if_pos h2]
      simp only [decide_eq_false_iff_not]
      omega
    · rw [if_neg h2]

/-- C6 witness: "Fyrxbaze" requires 3 edits in its only window and as a whole
field, and the matcher rejects it. -/
theorem c6_witness :
    (∀ i ∈ List.range ("Fyrxbaze".length - 8 + 1),
      3 ≤ levenshteinDistance "Firebase" (String.mk (("Fyrxbaze".data.drop i).take 8))) ∧
    3 ≤ levenshteinDistance "Firebase" "Fyrxbaze" ∧
    fuzzyMatch true 4 "Firebase" "Fyrxbaze" true = false :=
  ⟨by decide, by decide, c6_typo_tolerance.2.2.2 "Fyrxbaze" (by decide) (by decide)⟩

/-- C7: for every search term whose case-normalized length is at most 3,
every field value and every caseSensitive flag, the matcher with fuzzy search
enabled returns exactly the same boolean as the matcher with fuzzy search
disabled (exact substring containment, case-folded unless caseSensitive). -/
theorem c7_short_term_equivalence (tol : Nat) (searchTerm fieldValue : String) (cs : Bool)
    (h : (if cs then searchTerm else jsToLower searchTerm).length ≤ 3) :
    fuzzyMatch true tol searchTerm fieldValue cs =
      fuzzyMatch false tol searchTerm fieldValue cs := by
  cases cs with
  | false =>
    simp only [Bool.false_eq_true, if_false] at h
    simp [fuzzyMatch, h]
  | true =>
    simp only [if_true] at h
    simp [fuzzyMatch, h]

/-- C7 witness: the 2-character term "ab" matches "xAby" case-insensitively
in both modes. -/
theorem c7_witness :
    (if false then "ab" else jsToLower "ab").length ≤ 3 ∧
    fuzzyMatch true 4 "ab" "xAby" false = fuzzyMatch false 4 "ab" "xAby" false :=
  ⟨by decide, c7_short_term_equivalence 4 "ab" "xAby" false (by decide)⟩

mutual

/-- Normalizing twice equals normalizing once, by structural induction. -/
theorem transformFirestoreData_idem_aux :
    (x : JSData) → transformFirestoreData (transformFirestoreData x) = transformFirestoreData x
  | .vnull => rfl
  | .vstr _ => rfl
  | .vnum _ => rfl
  | .vbool _ => rfl
  | .vtimestamp _ _ => rfl
  | .vref _ => rfl
  | .varr items => by
      rw [show transformFirestoreData (.varr items) = .varr (transformList items) from rfl,
        show transformFirestoreData (.varr (transformList items)) =
          .varr (transformList (transformList items)) from rfl,
        transformList_idem_aux items]
  | .vmap entries => by
      rw [show transformFirestoreData (.vmap entries) = .vmap (transformEntries entries) from rfl,
        show transformFirestoreData (.vmap (transformEntries entries)) =
          .vmap (transformEntries (transformEntries entries)) from rfl,
        transformEntries_idem_aux entries]

/-- The array case of the idempotence induction. -/
theorem transformList_idem_aux :
    (l : List JSData) → transformList (transformList l) = transformList l
  | [] => rfl
  | x :: xs => by
      rw [show transformList (x :: xs) =
          transformFirestoreData x :: transformList xs from rfl,
        show transformList (transformFirestoreData x :: transformList xs) =
          transformFirestoreData (transformFirestoreData x) ::
            transformList (transformList xs) from rfl,
        transformFirestoreData_idem_aux x, transformList_idem_aux xs]

/-- The map case of the idempotence induction. -/
theorem transformEntries_idem_aux :
    (l : List (String × JSData)) → transformEntries (transformEntries l) = transformEntries l
  | [] => rfl
  | (k, v) :: rest => by
      rw [show transformEntries ((k, v) :: rest) =
          (k, transformFirestoreData v) :: transformEntries rest from rfl,
        show transformEntries ((k, transformFirestoreData v) :: transformEntries rest) =
          (k, transformFirestoreData (transformFirestoreData v)) ::
            transformEntries (transformEntries rest) from rfl,
        transformFirestoreData_idem_aux v, transformEntries_idem_aux rest]

end

/-- C8: the normalizer is idempotent - for every value, arbitrarily nested
null, primitives, timestamp-like values, reference-like values, ordered lists
and mappings, normalize(normalize(x)) = normalize(x). -/
theorem c8_normalize_idempotent (x : JSData) :
    transformFirestoreData (transformFirestoreData x) = transformFirestoreData x :=
  transformFirestoreData_idem_aux x

/-- C9: with limit 3 and window 60000 ms on a fresh key, three admit calls at
t = 0 are allowed (each recording its timestamp), the fourth call at t = 0 is
rejected leaving the window unchanged (no timestamp recorded), and a fifth
call at t = 60001 is allowed because the timestamps outside the window are
evicted before the count is compared to the limit. -/
theorem c9_rate_limiter_window :
    checkRateLimit 3 60000 0 [] = (true, [0]) ∧
    checkRateLimit 3 60000 0 [0] = (true, [0, 0]) ∧
    checkRateLimit 3 60000 0 [0, 0] = (true, [0, 0, 0]) ∧
    checkRateLimit 3 60000 0 [0, 0, 0] = (false, [0, 0, 0]) ∧
    checkRateLimit 3 60000 60001 [0, 0, 0] = (true, [60001]) :=
  ⟨rfl, rfl, rfl, rfl, rfl⟩

/-- C10: the matcher tests caseSensitive only for truthiness - for every
search term and field value, any JavaScript value in the caseSensitive
position behaves exactly as its ToBoolean coercion, the non-empty string
"false" (what an HTTP GET query parameter caseSensitive=false yields, since
the handler destructures query values without boolean parsing) is truthy and
therefore selects case-sensitive matching, and every falsy value selects
case-insensitive matching. -/
theorem c10_case_sensitive_truthiness :
    (∀ (e : Bool) (t : Nat) (term field : String) (v : JSVal),
      fuzzyMatchJS e t term field v = fuzzyMatch e t term field (jsTruthy v)) ∧
    jsTruthy (JSVal.vstr "false") = true ∧
    (∀ (e : Bool) (t : Nat) (term field : String) (v : JSVal),
      jsTruthy v = false →
      fuzzyMatchJS e t term field v = fuzzyMatch e t term field false) := by
  refine ⟨fun e t term field v => rfl, rfl, ?_⟩
  intro e t term field v hv
  calc fuzzyMatchJS e t term field v
      = fuzzyMatch e t term field (jsTruthy v) := rfl
    _ = fuzzyMatch e t term field false := by rw [hv]

/-- C10 witness: null is falsy and selects case-insensitive matching on a
concrete term and field. -/
theorem c10_witness :
    jsTruthy JSVal.vnull = false ∧
    fuzzyMatchJS false 4 "ab" "AB" JSVal.vnull = fuzzyMatch false 4 "ab" "AB" false :=
  ⟨rfl, c10_case_sensitive_truthiness.2.2 false 4 "ab" "AB" JSVal.vnull rfl⟩
